import Mathlib

/-!
Shallow embedding of the Tune Shifter content script
(`src/unnamed/part_003`, the variant with session-scoped `reverbEnabled`).

The content script is single-threaded and event-driven; we model it as a
pure state machine over `ContentState`.  JavaScript numbers are modelled
as `ℚ` except for the Web-Audio gain targets, which are set to `cos`/`sin`
values and are therefore modelled as `ℝ`.  DOM elements are identified by
an opaque reference (`Nat`), matching the script's reference-identity
registry; their mutable properties live in an explicit `elems` store.
-/

namespace TuneShifter

/-- A JSON-like dynamic value, modelling what `chrome.storage.local` can
hold and hand back to `loadSettings` (the stored blob is untyped from the
script's point of view). -/
inductive JsonVal where
  | vnull
  | vbool (b : Bool)
  | vnum (q : ℚ)
  | vstr (s : String)
  | vobj (fields : List (String × JsonVal))

/-- Dynamic view of the in-memory settings as produced by `loadSettings`:
the spread `{ ...DEFAULT_SETTINGS, ...siteSettings, reverbEnabled: false }`
copies whatever values the stored object holds, typed or not, so each
field is a `JsonVal`. -/
structure DynSettings where
  volume : JsonVal
  playbackRate : JsonVal
  preservesPitch : JsonVal
  muted : JsonVal
  reverb : JsonVal
  reverbEnabled : JsonVal

/-- The `DEFAULT_SETTINGS` constant of the script, as dynamic values. -/
def defaultsDyn : DynSettings :=
  { volume := .vnum 1
    playbackRate := .vnum 1
    preservesPitch := .vbool true
    muted := .vbool false
    reverb := .vnum 0
    reverbEnabled := .vbool false }

/-- Field lookup in a JS object literal (keys of a JSON-parsed object are
unique, so first match suffices). -/
def jsonLookup (fields : List (String × JsonVal)) (k : String) : Option JsonVal :=
  (fields.find? (fun p => p.1 == k)).map (fun p => p.2)

/-- Outcome of the `chrome.storage.local.get` call inside `loadSettings`:
the call can throw (caught by the surrounding `try`), return no record for
the key (`undefined`), or return a stored value. -/
inductive LoadOutcome where
  | storeThrew
  | loaded (v : Option JsonVal)

/-- `loadSettings` from the source.  The guard
`siteSettings && typeof siteSettings === 'object'` accepts exactly the
(truthy) object values — `null` has `typeof 'object'` but is falsy — and
then `{ ...DEFAULT_SETTINGS, ...siteSettings, reverbEnabled: false }`
merges the stored fields over the defaults with the trailing literal
forcing `reverbEnabled` to `false`.  Any other stored value, a missing
record, or a storage exception yields `{ ...DEFAULT_SETTINGS }`. -/
def loadSettings : LoadOutcome → DynSettings
  | .storeThrew => defaultsDyn
  | .loaded none => defaultsDyn
  | .loaded (some (.vobj fields)) =>
      { volume := (jsonLookup fields "volume").getD defaultsDyn.volume
        playbackRate := (jsonLookup fields "playbackRate").getD defaultsDyn.playbackRate
        preservesPitch := (jsonLookup fields "preservesPitch").getD defaultsDyn.preservesPitch
        muted := (jsonLookup fields "muted").getD defaultsDyn.muted
        reverb := (jsonLookup fields "reverb").getD defaultsDyn.reverb
        reverbEnabled := .vbool false }
  | .loaded (some _) => defaultsDyn

/-- Typed in-memory settings (`SiteSettings` in the source): every writer
other than `loadSettings` stores well-typed values, so the command machine
works with this typed record. -/
structure SiteSettings where
  volume : ℚ
  playbackRate : ℚ
  preservesPitch : Bool
  muted : Bool
  reverb : ℚ
  reverbEnabled : Bool
  deriving DecidableEq

/-- `DEFAULT_SETTINGS` from the source. -/
def DEFAULT_SETTINGS : SiteSettings :=
  { volume := 1
    playbackRate := 1
    preservesPitch := true
    muted := false
    reverb := 0
    reverbEnabled := false }

/-- The record `saveSettings` writes to storage: exactly the five
`PersistedSettings` fields, in source order; `reverbEnabled` is not
written. -/
def savedRecord (s : SiteSettings) : List (String × JsonVal) :=
  [ ("volume", .vnum s.volume)
  , ("playbackRate", .vnum s.playbackRate)
  , ("preservesPitch", .vbool s.preservesPitch)
  , ("muted", .vbool s.muted)
  , ("reverb", .vnum s.reverb) ]

/-- Mutable properties of an `HTMLMediaElement` as the script reads and
writes them.  The element itself is identified by an opaque reference
(`Nat`) elsewhere; this record is its property store.  `tapThrows` models
whether `createMediaElementSource` on this element throws (e.g. a
cross-origin restriction); `tapped` records that the one-time source tap
has been constructed. -/
structure MediaElement where
  volume : ℚ
  playbackRate : ℚ
  preservesPitch : Bool
  muted : Bool
  paused : Bool
  currentTime : ℚ
  duration : ℚ
  inDocument : Bool
  src : String
  currentSrc : String
  isVideo : Bool
  titleAttr : String
  figcaptionText : Option String
  ariaLabel : Option String
  sourceChildSrc : Option String
  tapThrows : Bool
  tapped : Bool
  deriving DecidableEq

/-- The per-element Web-Audio routing state (`MediaAudioGraph` in the
source).  The four nodes and their wiring are summarised by `connected`
(all nodes wired as built) and the two gain-target values the script sets
on `dryGain.gain` / `wetGain.gain`. -/
structure MediaAudioGraph where
  dryGainTarget : ℝ
  wetGainTarget : ℝ
  reverbMix : ℚ
  reverbEnabled : Bool
  connected : Bool

/-- Lookup in an insertion-ordered association list with `Nat` keys —
the shape of the script's `Map` registries. -/
def lookupL {α : Type} (l : List (Nat × α)) (k : Nat) : Option α :=
  (l.find? (fun p => p.1 == k)).map (fun p => p.2)

/-- Update the value stored under a key, leaving other entries alone
(mutating one heap object in place). -/
def setL {α : Type} (l : List (Nat × α)) (k : Nat) (f : α → α) : List (Nat × α) :=
  l.map (fun p => if p.1 == k then (p.1, f p.2) else p)

/-- Events observable at the messaging/persistence boundary, used to state
the ordering of the settings mutation, the storage write, and the
response.  `await` in the source means the awaited effect completes
before execution continues, so `saveSettings`'s write both starts and
completes before anything sequenced after `await saveSettings()`. -/
inductive Event where
  | settingsMutated
  | storeWriteStarted
  | storeWriteCompleted
  | responseSent
  deriving DecidableEq

/-- Whole-page state of the content script: the module-level mutable
variables, the element property store, a heap of graph objects (the
registry stores references so that the `setTimeout` closure in
`toggleReverb` can capture a graph object by identity), the queue of
scheduled teardown timeouts, the log of storage writes, and the list of
media elements currently in the document (`discoverMediaElements`). -/
structure ContentState where
  currentSettings : SiteSettings
  settingsLoaded : Bool
  /-- What `loadSettings` would produce for this site, typed view; the
  dynamic merge itself is modelled by `loadSettings` above. -/
  loadedSiteSettings : SiteSettings
  audioContextExists : Bool
  mediaRegistry : List (Nat × Nat)
  nextId : Nat
  audioGraphRegistry : List (Nat × Nat)
  graphHeap : List (Nat × MediaAudioGraph)
  nextGraphRef : Nat
  /-- Scheduled `setTimeout` teardowns from `toggleReverb`'s disable
  branch, FIFO (all use the same 200 ms delay); each entry captures the
  graph object reference and the media id. -/
  pendingTeardowns : List (Nat × Nat)
  storeWrites : List (List (String × JsonVal))
  elems : Nat → MediaElement
  domMedia : List Nat

/-- Replace one element's property record (a JS property assignment). -/
def updateElem (st : ContentState) (el : Nat) (f : MediaElement → MediaElement) :
    ContentState :=
  { st with elems := fun r => if r = el then f (st.elems r) else st.elems r }

/-- `getMediaId` from the source: scan the registry for the element by
reference identity; otherwise allocate `nextId++` and append the
mapping (a `Map.set` with a fresh key appends in insertion order). -/
def getMediaId (st : ContentState) (el : Nat) : Nat × ContentState :=
  match st.mediaRegistry.find? (fun p => p.2 == el) with
  | some p => (p.1, st)
  | none =>
      (st.nextId,
       { st with
         mediaRegistry := st.mediaRegistry ++ [(st.nextId, el)]
         nextId := st.nextId + 1 })

/-- `createAudioGraph` from the source.  Returns the (reference to the)
graph, or `none` when reverb is disabled or construction threw.  The
`try` block first initialises the audio context and impulse response
(`initAudioContext`, modelled by the `audioContextExists` flag), then taps
the element (`createMediaElementSource`, which throws iff `tapThrows`),
builds the dry/wet routing with initial gains 1 and 0, and registers the
graph; the `catch` swallows the error and yields `null`. -/
def createAudioGraph (st : ContentState) (id : Nat) (el : Nat) :
    ContentState × Option Nat :=
  if !st.currentSettings.reverbEnabled then (st, none)
  else match lookupL st.audioGraphRegistry id with
  | some gref => (st, some gref)
  | none =>
      let st₁ := { st with audioContextExists := true }
      if (st₁.elems el).tapThrows then (st₁, none)
      else
        let gref := st₁.nextGraphRef
        let graph : MediaAudioGraph :=
          { dryGainTarget := 1
            wetGainTarget := 0
            reverbMix := 0
            reverbEnabled := true
            connected := true }
        let st₂ := updateElem st₁ el (fun e => { e with tapped := true })
        ({ st₂ with
           graphHeap := st₂.graphHeap ++ [(gref, graph)]
           nextGraphRef := gref + 1
           audioGraphRegistry := st₂.audioGraphRegistry ++ [(id, gref)] },
         some gref)

/-- `updateReverbMix` from the source: no-op without a graph or audio
context; otherwise ramp the dry gain toward `cos(wetMix·π/2)` and the wet
gain toward `sin(wetMix·π/2)` and record the mix. -/
noncomputable def updateReverbMix (st : ContentState) (id : Nat) (wetMix : ℚ) :
    ContentState :=
  match lookupL st.audioGraphRegistry id with
  | none => st
  | some gref =>
      if !st.audioContextExists then st
      else
        { st with
          graphHeap := setL st.graphHeap gref (fun g =>
            { g with
              dryGainTarget := Real.cos ((wetMix * Real.pi) / 2)
              wetGainTarget := Real.sin ((wetMix * Real.pi) / 2)
              reverbMix := wetMix }) }

/-- `ensureAudioGraph` from the source — an alias for `createAudioGraph`. -/
def ensureAudioGraph (st : ContentState) (id : Nat) (el : Nat) :
    ContentState × Option Nat :=
  createAudioGraph st id el

/-- `toggleReverb` from the source.  Enable builds (or finds) the graph
and sets the mix; disable fades the registered graph down and schedules a
200 ms teardown that captures the graph object and the id. -/
noncomputable def toggleReverb (st : ContentState) (id : Nat) (enabled : Bool) :
    ContentState :=
  match lookupL st.mediaRegistry id with
  | none => st
  | some el =>
      if enabled then
        let st₁ := (createAudioGraph st id el).1
        updateReverbMix st₁ id st₁.currentSettings.reverb
      else
        match lookupL st.audioGraphRegistry id with
        | none => st
        | some gref =>
            if st.audioContextExists then
              { st with
                graphHeap := setL st.graphHeap gref (fun g =>
                  { g with wetGainTarget := 0, dryGainTarget := 1 })
                pendingTeardowns := st.pendingTeardowns ++ [(gref, id)] }
            else st

/-- The body of the `setTimeout` callback scheduled by `toggleReverb`'s
disable branch: disconnect the captured graph's nodes and delete the id
from `audioGraphRegistry` (whatever graph that id currently maps to). -/
def runTeardown (st : ContentState) (t : Nat × Nat) : ContentState :=
  { st with
    graphHeap := setL st.graphHeap t.1 (fun g => { g with connected := false })
    audioGraphRegistry := st.audioGraphRegistry.filter (fun p => p.1 != t.2) }

/-- Fire the oldest pending teardown timeout (all teardowns share the same
delay, so they fire in FIFO order). -/
def fireNextTeardown (st : ContentState) : ContentState :=
  match st.pendingTeardowns with
  | [] => st
  | t :: rest => runTeardown { st with pendingTeardowns := rest } t

/-- `pruneRegistry` from the source: drop every media entry whose element
is detached and sourceless, and the graph-registry entries of the dropped
ids. -/
def shouldPrune (st : ContentState) (p : Nat × Nat) : Bool :=
  let e := st.elems p.2
  !e.inDocument && e.src == "" && e.currentSrc == ""

/-- Body of `pruneRegistry`. -/
def pruneRegistry (st : ContentState) : ContentState :=
  let prunedIds := (st.mediaRegistry.filter (shouldPrune st)).map (fun p => p.1)
  { st with
    mediaRegistry := st.mediaRegistry.filter (fun p => !shouldPrune st p)
    audioGraphRegistry :=
      st.audioGraphRegistry.filter (fun p => !prunedIds.contains p.1) }

/-- `applySettingsToElement` from the source: write the four basic
settings onto the element, then, only if reverb is enabled, ensure the
graph and set the mix (the `.then` continuation of `ensureAudioGraph`). -/
noncomputable def applySettingsToElement (st : ContentState) (el : Nat) (id : Nat) :
    ContentState :=
  let st₁ := updateElem st el (fun e =>
    { e with
      volume := st.currentSettings.volume
      playbackRate := st.currentSettings.playbackRate
      preservesPitch := st.currentSettings.preservesPitch
      muted := st.currentSettings.muted })
  if st₁.currentSettings.reverbEnabled then
    let st₂ := (ensureAudioGraph st₁ id el).1
    updateReverbMix st₂ id st₂.currentSettings.reverb
  else st₁

/-- The `MediaInfo` snapshot record sent to the control panel. -/
structure MediaInfo where
  id : Nat
  isVideo : Bool
  src : String
  title : String
  paused : Bool
  currentTime : ℚ
  duration : ℚ
  volume : ℚ
  playbackRate : ℚ
  preservesPitch : Bool
  muted : Bool
  reverb : ℚ
  reverbEnabled : Bool
  deriving DecidableEq

/-- URL parsing for `getTitle`: `new URL(src)` succeeds iff the string has
the shape `scheme://host/path…`; returns `(hostname, path segments)`.
This abstracts the browser's URL parser just enough for the title
fallback chain; `decodeURIComponent` is modelled as the identity. -/
def urlParts (s : String) : Option (String × List String) :=
  match s.splitOn "://" with
  | [scheme, rest] =>
      if scheme = "" ∨ rest = "" then none
      else
        match rest.splitOn "/" with
        | [] => none
        | host :: pathSegments => some (host, pathSegments)
  | _ => none

/-- `getTitle` from the source: explicit `title` attribute → enclosing
figure's caption text (trimmed) → `aria-label` → filename segment of the
source URL (hostname if the path has no filename, first 60 chars if the
URL does not parse) → filename of a `<source>` child → generic tag
label. -/
def getTitle (e : MediaElement) : String :=
  if e.titleAttr ≠ "" then e.titleAttr
  else match e.figcaptionText with
  | some cap =>
      if cap ≠ "" then cap.trim
      else getTitleAfterCaption e
  | none => getTitleAfterCaption e
where
  /-- Continuation of the fallback chain after the caption step. -/
  getTitleAfterCaption (e : MediaElement) : String :=
    match e.ariaLabel with
    | some lab => if lab ≠ "" then lab else getTitleFromSrc e
    | none => getTitleFromSrc e
  /-- The `src`-derived steps of the chain. -/
  getTitleFromSrc (e : MediaElement) : String :=
    let src := if e.currentSrc ≠ "" then e.currentSrc else e.src
    if src ≠ "" then
      match urlParts src with
      | some (host, pathSegments) =>
          let filename := pathSegments.getLastD ""
          if filename ≠ "" ∧ filename ≠ "/" then filename else host
      | none => src.take 60
    else
      match e.sourceChildSrc with
      | some childSrc =>
          if childSrc ≠ "" then
            match urlParts childSrc with
            | some (_, pathSegments) =>
                let filename := pathSegments.getLastD ""
                if filename ≠ "" then filename else getTitleDefault e
            | none => getTitleDefault e
          else getTitleDefault e
      | none => getTitleDefault e
  /-- The tag-derived generic label. -/
  getTitleDefault (e : MediaElement) : String :=
    if e.isVideo then "Video" else "Audio"

/-- The graph object currently registered for an id (registry reference
followed into the heap). -/
def getGraph (st : ContentState) (id : Nat) : Option MediaAudioGraph :=
  (lookupL st.audioGraphRegistry id).bind (lookupL st.graphHeap)

/-- `buildMediaInfo` from the source.  The volume / rate / pitch / mute
fields are read from `currentSettings`, not from the element; `reverb` and
`reverbEnabled` come from the registered graph when there is one.
(`el.duration || 0` guards `NaN`; with `ℚ` durations it is the
identity.) -/
def buildMediaInfo (st : ContentState) (e : MediaElement) (id : Nat) : MediaInfo :=
  let graph := getGraph st id
  { id := id
    isVideo := e.isVideo
    src := if e.currentSrc ≠ "" then e.currentSrc else e.src
    title := getTitle e
    paused := e.paused
    currentTime := e.currentTime
    duration := e.duration
    volume := st.currentSettings.volume
    playbackRate := st.currentSettings.playbackRate
    preservesPitch := st.currentSettings.preservesPitch
    muted := st.currentSettings.muted
    reverb := (graph.map (fun g => g.reverbMix)).getD st.currentSettings.reverb
    reverbEnabled := (graph.map (fun g => g.reverbEnabled)).getD false }

/-- The registration pass of `getAllMedia`: for each discovered element,
look up / allocate its id and apply the saved settings. -/
noncomputable def registerDiscovered (st : ContentState) (dom : List Nat) : ContentState :=
  dom.foldl (fun s el =>
    let (id, s') := getMediaId s el
    applySettingsToElement s' el id) st

/-- `getAllMedia` from the source: prune, re-register and re-apply
settings to every discovered element, then emit one `MediaInfo` per
`mediaRegistry` entry, in the `Map`'s insertion order. -/
noncomputable def getAllMedia (st : ContentState) : ContentState × List MediaInfo :=
  let st₁ := pruneRegistry st
  let st₂ := registerDiscovered st₁ st₁.domMedia
  (st₂, st₂.mediaRegistry.map (fun p => buildMediaInfo st₂ (st₂.elems p.2) p.1))

/-- The `prop`/`value` pair passed to `applyChange`
(`keyof SiteSettings` plus the matching cast of `value`). -/
inductive SettingChange where
  | volume (v : ℚ)
  | playbackRate (v : ℚ)
  | preservesPitch (b : Bool)
  | muted (b : Bool)
  | reverb (v : ℚ)
  | reverbEnabled (b : Bool)
  deriving DecidableEq

/-- `Math.max(0, Math.min(1, v))`. -/
def clamp01 (v : ℚ) : ℚ := max 0 (min 1 v)

/-- `saveSettings` from the source, as it occurs awaited inside
`applyChange`: write the five persisted fields of the current settings to
storage.  The write is awaited, so both its start and its completion are
sequenced before whatever follows; storage failures are swallowed. -/
def saveSettingsStep (st : ContentState) : ContentState × List Event :=
  ({ st with storeWrites := st.storeWrites ++ [savedRecord st.currentSettings] },
   [.storeWriteStarted, .storeWriteCompleted])

/-- `applyChange` from the source: resolve the element (early `false`
return when the id is untracked, before any mutation or write), apply the
change to element + settings (+ graph for the reverb cases), then
`await saveSettings()` and return `true`.  The third component is the
trace of boundary events in execution order. -/
noncomputable def applyChange (st : ContentState) (id : Nat) (ch : SettingChange) :
    ContentState × Bool × List Event :=
  match lookupL st.mediaRegistry id with
  | none => (st, false, [])
  | some el =>
      let st₁ :=
        match ch with
        | .volume v =>
            let cv := clamp01 v
            let s := updateElem st el (fun e => { e with volume := cv })
            { s with currentSettings := { s.currentSettings with volume := cv } }
        | .playbackRate v =>
            let s := updateElem st el (fun e => { e with playbackRate := v })
            { s with currentSettings := { s.currentSettings with playbackRate := v } }
        | .preservesPitch b =>
            let s := updateElem st el (fun e => { e with preservesPitch := b })
            { s with currentSettings := { s.currentSettings with preservesPitch := b } }
        | .muted b =>
            let s := updateElem st el (fun e => { e with muted := b })
            { s with currentSettings := { s.currentSettings with muted := b } }
        | .reverb v =>
            let s := { st with
              currentSettings := { st.currentSettings with reverb := clamp01 v } }
            if s.currentSettings.reverbEnabled then
              updateReverbMix s id s.currentSettings.reverb
            else s
        | .reverbEnabled b =>
            let s := { st with
              currentSettings := { st.currentSettings with reverbEnabled := b } }
            toggleReverb s id s.currentSettings.reverbEnabled
      let (st₂, saveEvents) := saveSettingsStep st₁
      (st₂, true, Event.settingsMutated :: saveEvents)

/-- The `MessageRequest` union type of the source. -/
inductive MessageRequest where
  | ping
  | getMedia
  | setVolume (id : Nat) (value : ℚ)
  | setPlaybackRate (id : Nat) (value : ℚ)
  | setPreservesPitch (id : Nat) (value : Bool)
  | setMuted (id : Nat) (value : Bool)
  | setReverb (id : Nat) (value : ℚ)
  | setReverbEnabled (id : Nat) (value : Bool)
  deriving DecidableEq

/-- Responses produced by the message handler. -/
inductive Response where
  | pong
  | media (list : List MediaInfo)
  | ok
  deriving DecidableEq

/-- The mutating request carrying a given `applyChange` payload — the six
`set*` actions of the protocol. -/
def reqOf (id : Nat) : SettingChange → MessageRequest
  | .volume v => .setVolume id v
  | .playbackRate v => .setPlaybackRate id v
  | .preservesPitch b => .setPreservesPitch id b
  | .muted b => .setMuted id b
  | .reverb v => .setReverb id v
  | .reverbEnabled b => .setReverbEnabled id b

/-- The `handleAsync` body of the `onMessage` listener: lazily load the
settings once, then dispatch; every `set*` action awaits `applyChange`
(ignoring its boolean) and answers `{ok: true}`.  The event trace appends
the response event after everything the handler awaited. -/
noncomputable def handleMessage (st : ContentState) (req : MessageRequest) :
    ContentState × Response × List Event :=
  let st₀ :=
    if st.settingsLoaded then st
    else { st with currentSettings := st.loadedSiteSettings, settingsLoaded := true }
  match req with
  | .ping => (st₀, .pong, [.responseSent])
  | .getMedia =>
      let (st₁, infos) := getAllMedia st₀
      (st₁, .media infos, [.responseSent])
  | .setVolume id v =>
      let (st₁, _, ev) := applyChange st₀ id (.volume v)
      (st₁, .ok, ev ++ [.responseSent])
  | .setPlaybackRate id v =>
      let (st₁, _, ev) := applyChange st₀ id (.playbackRate v)
      (st₁, .ok, ev ++ [.responseSent])
  | .setPreservesPitch id b =>
      let (st₁, _, ev) := applyChange st₀ id (.preservesPitch b)
      (st₁, .ok, ev ++ [.responseSent])
  | .setMuted id b =>
      let (st₁, _, ev) := applyChange st₀ id (.muted b)
      (st₁, .ok, ev ++ [.responseSent])
  | .setReverb id v =>
      let (st₁, _, ev) := applyChange st₀ id (.reverb v)
      (st₁, .ok, ev ++ [.responseSent])
  | .setReverbEnabled id b =>
      let (st₁, _, ev) := applyChange st₀ id (.reverbEnabled b)
      (st₁, .ok, ev ++ [.responseSent])

/-- Top-level events the content script reacts to: an inbound message, a
due teardown timeout, an element reaching one of the discovery channels
(`observeElement` covers the initial scan, the mutation observer and the
capturing `play` handler, which all call `getMediaId` +
`applySettingsToElement`; `constructMedia` covers the patched `Audio` /
`createElement` interceptors, which only call `getMediaId`), and the
page's own scripts mutating an element's properties or detaching it. -/
inductive Op where
  | message (req : MessageRequest)
  | timeoutDue
  | observeElement (el : Nat)
  | constructMedia (el : Nat)
  | pageScript (el : Nat) (e : MediaElement)
  | domChanged (dom : List Nat)

/-- One reaction of the content script to a page event. -/
noncomputable def step (st : ContentState) : Op → ContentState
  | .message req => (handleMessage st req).1
  | .timeoutDue => fireNextTeardown st
  | .observeElement el =>
      let (id, st') := getMediaId st el
      applySettingsToElement st' el id
  | .constructMedia el => (getMediaId st el).2
  | .pageScript el e => { st with elems := fun r => if r = el then e else st.elems r }
  | .domChanged dom => { st with domMedia := dom }

/-- Run a sequence of page events. -/
noncomputable def run (st : ContentState) (ops : List Op) : ContentState :=
  ops.foldl step st

/-! ### Registry invariants -/

/-- Ids currently present in the media registry, in insertion order. -/
def regKeys (st : ContentState) : List Nat := st.mediaRegistry.map (fun p => p.1)

/-- Registry well-formedness: every registered id was allocated from
`nextId` (so is below it), and ids appear in strictly increasing
insertion order (fresh keys are appended, and they increase). -/
def WF (st : ContentState) : Prop :=
  (∀ p ∈ st.mediaRegistry, p.1 < st.nextId) ∧ (regKeys st).Pairwise (· < ·)

/-- In an association list with strictly increasing keys, entries are
determined by their key. -/
theorem keys_mono_inj {α : Type} {l : List (Nat × α)}
    (h : (l.map Prod.fst).Pairwise (· < ·)) :
    ∀ p ∈ l, ∀ q ∈ l, p.1 = q.1 → p = q := by
  induction l with
  | nil => intro p hp; exact absurd hp (List.not_mem_nil p)
  | cons x xs ih =>
      simp only [List.map_cons, List.pairwise_cons] at h
      obtain ⟨hx, hxs⟩ := h
      intro p hp q hq hpq
      rcases List.mem_cons.mp hp with hp1 | hp1
      · rcases List.mem_cons.mp hq with hq1 | hq1
        · exact hp1.trans hq1.symm
        · exfalso
          have hlt := hx q.1 (List.mem_map_of_mem Prod.fst hq1)
          rw [hp1] at hpq
          omega
      · rcases List.mem_cons.mp hq with hq1 | hq1
        · exfalso
          have hlt := hx p.1 (List.mem_map_of_mem Prod.fst hp1)
          rw [hq1] at hpq
          omega
        · exact ih hxs p hp1 q hq1 hpq

theorem getMediaId_fst_of_found {st : ContentState} {el : Nat} {p : Nat × Nat}
    (h : st.mediaRegistry.find? (fun q => q.2 == el) = some p) :
    getMediaId st el = (p.1, st) := by
  unfold getMediaId
  rw [h]

theorem getMediaId_of_fresh {st : ContentState} {el : Nat}
    (h : st.mediaRegistry.find? (fun q => q.2 == el) = none) :
    getMediaId st el =
      (st.nextId,
       { st with
         mediaRegistry := st.mediaRegistry ++ [(st.nextId, el)]
         nextId := st.nextId + 1 }) := by
  unfold getMediaId
  rw [h]

/-! ### Frame lemmas: which operations leave the media registry alone -/

theorem createAudioGraph_frame (st : ContentState) (id el : Nat) :
    ((createAudioGraph st id el).1).mediaRegistry = st.mediaRegistry ∧
    ((createAudioGraph st id el).1).nextId = st.nextId := by
  unfold createAudioGraph
  split
  · exact ⟨rfl, rfl⟩
  · split
    · exact ⟨rfl, rfl⟩
    · dsimp only
      split
      · exact ⟨rfl, rfl⟩
      · exact ⟨rfl, rfl⟩

theorem updateReverbMix_frame (st : ContentState) (id : Nat) (m : ℚ) :
    ((updateReverbMix st id m)).mediaRegistry = st.mediaRegistry ∧
    ((updateReverbMix st id m)).nextId = st.nextId := by
  unfold updateReverbMix
  split
  · exact ⟨rfl, rfl⟩
  · split
    · exact ⟨rfl, rfl⟩
    · exact ⟨rfl, rfl⟩

theorem toggleReverb_frame (st : ContentState) (id : Nat) (b : Bool) :
    ((toggleReverb st id b)).mediaRegistry = st.mediaRegistry ∧
    ((toggleReverb st id b)).nextId = st.nextId := by
  unfold toggleReverb
  split
  · exact ⟨rfl, rfl⟩
  · split
    · constructor
      · rw [(updateReverbMix_frame _ _ _).1, (createAudioGraph_frame st id _).1]
      · rw [(updateReverbMix_frame _ _ _).2, (createAudioGraph_frame st id _).2]
    · split
      · exact ⟨rfl, rfl⟩
      · split
        · exact ⟨rfl, rfl⟩
        · exact ⟨rfl, rfl⟩

theorem applyChange_frame (st : ContentState) (id : Nat) (ch : SettingChange) :
    ((applyChange st id ch).1).mediaRegistry = st.mediaRegistry ∧
    ((applyChange st id ch).1).nextId = st.nextId := by
  unfold applyChange
  split
  · exact ⟨rfl, rfl⟩
  · cases ch with
    | volume v => exact ⟨rfl, rfl⟩
    | playbackRate v => exact ⟨rfl, rfl⟩
    | preservesPitch b => exact ⟨rfl, rfl⟩
    | muted b => exact ⟨rfl, rfl⟩
    | reverb v =>
        simp only [saveSettingsStep]
        split
        · exact ⟨(updateReverbMix_frame _ _ _).1, (updateReverbMix_frame _ _ _).2⟩
        · exact ⟨rfl, rfl⟩
    | reverbEnabled b =>
        simp only [saveSettingsStep]
        exact ⟨(toggleReverb_frame _ _ _).1, (toggleReverb_frame _ _ _).2⟩

theorem applySettingsToElement_frame (st : ContentState) (el id : Nat) :
    ((applySettingsToElement st el id)).mediaRegistry = st.mediaRegistry ∧
    ((applySettingsToElement st el id)).nextId = st.nextId := by
  unfold applySettingsToElement ensureAudioGraph
  dsimp only
  split
  · constructor
    · rw [(updateReverbMix_frame _ _ _).1, (createAudioGraph_frame _ _ _).1]
      rfl
    · rw [(updateReverbMix_frame _ _ _).2, (createAudioGraph_frame _ _ _).2]
      rfl
  · exact ⟨rfl, rfl⟩

theorem fireNextTeardown_frame (st : ContentState) :
    ((fireNextTeardown st)).mediaRegistry = st.mediaRegistry ∧
    ((fireNextTeardown st)).nextId = st.nextId := by
  unfold fireNextTeardown runTeardown
  split
  · exact ⟨rfl, rfl⟩
  · exact ⟨rfl, rfl⟩

/-! ### Freshness: an absent, already-allocated id can never reappear -/

/-- The id is not registered and is below the allocation counter. -/
def Retired (id : Nat) (st : ContentState) : Prop :=
  id ∉ regKeys st ∧ id < st.nextId

theorem Retired.of_frame {id : Nat} {st st' : ContentState}
    (hreg : st'.mediaRegistry = st.mediaRegistry) (hnext : st'.nextId = st.nextId)
    (h : Retired id st) : Retired id st' := by
  constructor
  · rw [regKeys, hreg]; exact h.1
  · rw [hnext]; exact h.2

theorem Retired.getMediaId {id : Nat} {st : ContentState} (el : Nat)
    (h : Retired id st) : Retired id (getMediaId st el).2 := by
  unfold TuneShifter.getMediaId
  cases hf : st.mediaRegistry.find? (fun q => q.2 == el) with
  | some p => exact h
  | none =>
      constructor
      · intro hmem
        rw [regKeys] at hmem
        simp only [List.map_append, List.mem_append] at hmem
        rcases hmem with hmem | hmem
        · exact h.1 hmem
        · simp only [List.map_cons, List.map_nil, List.mem_singleton] at hmem
          have := h.2
          omega
      · have := h.2
        show id < st.nextId + 1
        omega

theorem Retired.pruneRegistry {id : Nat} {st : ContentState}
    (h : Retired id st) : Retired id (pruneRegistry st) := by
  constructor
  · intro hmem
    rw [regKeys] at hmem
    rcases List.mem_map.mp hmem with ⟨p, hp, hid⟩
    exact h.1 (hid ▸ List.mem_map_of_mem Prod.fst (List.mem_of_mem_filter hp))
  · exact h.2

theorem Retired.applySettingsToElement {id : Nat} {st : ContentState} (el i : Nat)
    (h : Retired id st) : Retired id (applySettingsToElement st el i) :=
  h.of_frame (applySettingsToElement_frame st el i).1
    (applySettingsToElement_frame st el i).2

theorem Retired.registerDiscovered {id : Nat} {st : ContentState} {dom : List Nat}
    (h : Retired id st) : Retired id (registerDiscovered st dom) := by
  induction dom generalizing st with
  | nil => exact h
  | cons el rest ih =>
      have h1 : Retired id (TuneShifter.getMediaId st el).2 := h.getMediaId el
      exact ih (h1.applySettingsToElement el (TuneShifter.getMediaId st el).1)

theorem Retired.handleMessage {id : Nat} {st : ContentState} (req : MessageRequest)
    (h : Retired id st) : Retired id (handleMessage st req).1 := by
  have h0 : Retired id
      (if st.settingsLoaded then st
       else { st with currentSettings := st.loadedSiteSettings, settingsLoaded := true }) := by
    split
    · exact h
    · exact h.of_frame rfl rfl
  cases req with
  | ping => exact h0
  | getMedia =>
      simp only [TuneShifter.handleMessage, getAllMedia]
      exact h0.pruneRegistry.registerDiscovered
  | setVolume i v =>
      exact h0.of_frame (applyChange_frame _ i (.volume v)).1 (applyChange_frame _ i (.volume v)).2
  | setPlaybackRate i v =>
      exact h0.of_frame (applyChange_frame _ i (.playbackRate v)).1
        (applyChange_frame _ i (.playbackRate v)).2
  | setPreservesPitch i b =>
      exact h0.of_frame (applyChange_frame _ i (.preservesPitch b)).1
        (applyChange_frame _ i (.preservesPitch b)).2
  | setMuted i b =>
      exact h0.of_frame (applyChange_frame _ i (.muted b)).1 (applyChange_frame _ i (.muted b)).2
  | setReverb i v =>
      exact h0.of_frame (applyChange_frame _ i (.reverb v)).1 (applyChange_frame _ i (.reverb v)).2
  | setReverbEnabled i b =>
      exact h0.of_frame (applyChange_frame _ i (.reverbEnabled b)).1
        (applyChange_frame _ i (.reverbEnabled b)).2

theorem Retired.step {id : Nat} {st : ContentState} (op : Op)
    (h : Retired id st) : Retired id (step st op) := by
  cases op with
  | message req => exact h.handleMessage req
  | timeoutDue => exact h.of_frame (fireNextTeardown_frame st).1 (fireNextTeardown_frame st).2
  | observeElement el => exact (h.getMediaId el).applySettingsToElement el _
  | constructMedia el => exact h.getMediaId el
  | pageScript el e => exact h.of_frame rfl rfl
  | domChanged dom => exact h.of_frame rfl rfl

theorem Retired.run {id : Nat} {st : ContentState} (ops : List Op)
    (h : Retired id st) : Retired id (run st ops) := by
  induction ops generalizing st with
  | nil => exact h
  | cons op rest ih => exact ih (h.step op)

/-! ### Sample states for concrete evaluation -/

/-- An ordinary attached audio element, tappable. -/
def elemA : MediaElement :=
  { volume := 1
    playbackRate := 1
    preservesPitch := true
    muted := false
    paused := true
    currentTime := 0
    duration := 10
    inDocument := true
    src := "a.mp3"
    currentSrc := ""
    isVideo := false
    titleAttr := ""
    figcaptionText := none
    ariaLabel := none
    sourceChildSrc := none
    tapThrows := false
    tapped := false }

/-- A detached element with no resolvable source — prune-eligible. -/
def elemGone : MediaElement :=
  { elemA with inDocument := false, src := "", currentSrc := "" }

/-- A cross-origin element whose source tap throws. -/
def elemCors : MediaElement :=
  { elemA with tapThrows := true }

/-- Element property store for the sample states: ref 0 is ordinary,
ref 1 is prune-eligible, ref 2 is cross-origin-restricted. -/
def sampleElems : Nat → MediaElement :=
  fun r => if r = 1 then elemGone else if r = 2 then elemCors else elemA

/-- A quiescent page state: two tracked elements (ids 1 and 2, refs 0 and
1), settings loaded and at defaults, no audio graphs. -/
def stBase : ContentState :=
  { currentSettings := DEFAULT_SETTINGS
    settingsLoaded := true
    loadedSiteSettings := DEFAULT_SETTINGS
    audioContextExists := false
    mediaRegistry := [(1, 0), (2, 1)]
    nextId := 3
    audioGraphRegistry := []
    graphHeap := []
    nextGraphRef := 0
    pendingTeardowns := []
    storeWrites := []
    elems := sampleElems
    domMedia := [0] }

/-- The sample page state with reverb enabled in the session settings. -/
def stRev : ContentState :=
  { stBase with
    currentSettings := { DEFAULT_SETTINGS with reverbEnabled := true } }

/-! ### C4 — identity stability, uniqueness, and no id reuse -/

/-- C4: for every element, repeated `getMediaId` calls return the same id
(the second call finds the entry the first call returned or created);
distinct elements never share an id (under the registry invariant `WF`);
and an id removed by `pruneRegistry` is never assigned again — it never
reappears in the registry under any later sequence of page events, for
any element, because ids are allocated monotonically from `nextId` and
never reused. -/
theorem mediaId_stable_unique_unreused :
    (∀ st el, getMediaId (getMediaId st el).2 el = getMediaId st el) ∧
    (∀ st el el', WF st → el ≠ el' →
      (getMediaId st el).1 ≠ (getMediaId (getMediaId st el).2 el').1) ∧
    (∀ st id, WF st → id ∈ regKeys st → id ∉ regKeys (pruneRegistry st) →
      ∀ ops, id ∉ regKeys (run (pruneRegistry st) ops)) := by
  refine ⟨?_, ?_, ?_⟩
  · intro st el
    cases hf : st.mediaRegistry.find? (fun q => q.2 == el) with
    | some p =>
        rw [getMediaId_fst_of_found hf]
        exact getMediaId_fst_of_found hf
    | none =>
        rw [getMediaId_of_fresh hf]
        have hf2 : (st.mediaRegistry ++ [(st.nextId, el)]).find?
            (fun q => q.2 == el) = some (st.nextId, el) := by
          rw [List.find?_append, hf]
          simp
        exact @getMediaId_fst_of_found
          { st with
            mediaRegistry := st.mediaRegistry ++ [(st.nextId, el)]
            nextId := st.nextId + 1 } el (st.nextId, el) hf2
  · intro st el el' hWF hne
    cases hf : st.mediaRegistry.find? (fun q => q.2 == el) with
    | some p =>
        rw [getMediaId_fst_of_found hf]
        cases hf' : st.mediaRegistry.find? (fun q => q.2 == el') with
        | some q =>
            rw [getMediaId_fst_of_found hf']
            intro heq
            have hp := List.mem_of_find?_eq_some hf
            have hq := List.mem_of_find?_eq_some hf'
            have hpel : p.2 = el := by simpa using List.find?_some hf
            have hqel : q.2 = el' := by simpa using List.find?_some hf'
            have hpq := keys_mono_inj hWF.2 p hp q hq heq
            exact hne (by rw [← hpel, ← hqel, hpq])
        | none =>
            rw [getMediaId_of_fresh hf']
            have := hWF.1 p (List.mem_of_find?_eq_some hf)
            omega
    | none =>
        rw [getMediaId_of_fresh hf]
        have hsingle : ([(st.nextId, el)] : List (Nat × Nat)).find?
            (fun q => q.2 == el') = none := by
          simp [hne]
        cases hf' : st.mediaRegistry.find? (fun q => q.2 == el') with
        | some q =>
            have hf2 : (st.mediaRegistry ++ [(st.nextId, el)]).find?
                (fun q => q.2 == el') = some q := by
              rw [List.find?_append, hf']
              rfl
            rw [getMediaId_fst_of_found hf2]
            have := hWF.1 q (List.mem_of_find?_eq_some hf')
            show st.nextId ≠ q.1
            omega
        | none =>
            have hf2 : (st.mediaRegistry ++ [(st.nextId, el)]).find?
                (fun q => q.2 == el') = none := by
              rw [List.find?_append, hf', hsingle]
              rfl
            rw [getMediaId_of_fresh hf2]
            show st.nextId ≠ st.nextId + 1
            omega
  · intro st id hWF hmem hgone ops
    have hlt : id < (pruneRegistry st).nextId := by
      show id < st.nextId
      rcases List.mem_map.mp hmem with ⟨p, hp, rfl⟩
      exact hWF.1 p hp
    exact (Retired.run ops ⟨hgone, hlt⟩).1

/-- Witness for C4: on the sample page state, a fresh element keeps its id
across calls, two distinct tracked elements get distinct ids, and the
prune-removed id 2 (its element is detached and sourceless) is absent
after a further `getMedia` poll. -/
theorem mediaId_stable_unique_unreused_witness :
    (getMediaId (getMediaId stBase 7).2 7 = getMediaId stBase 7) ∧
    ((getMediaId stBase 0).1 ≠ (getMediaId (getMediaId stBase 0).2 1).1) ∧
    (2 ∉ regKeys (run (pruneRegistry stBase) [Op.message .getMedia])) :=
  ⟨mediaId_stable_unique_unreused.1 stBase 7,
   mediaId_stable_unique_unreused.2.1 stBase 0 1 ⟨by decide, by decide⟩ (by decide),
   mediaId_stable_unique_unreused.2.2 stBase 2 ⟨by decide, by decide⟩ (by decide)
     (by decide) [Op.message .getMedia]⟩

/-! ### C3 — reverbEnabled is never persisted and never loaded as true -/

/-- C3: the record `saveSettings` persists holds exactly the five fields
volume, playbackRate, preservesPitch, muted, reverb — `reverbEnabled` is
not among its keys — and for every stored value (including an object with
`reverbEnabled: true`) `loadSettings` yields `reverbEnabled = false`. -/
theorem reverbEnabled_never_persisted_never_loaded :
    (∀ s : SiteSettings,
      (savedRecord s).map Prod.fst =
        ["volume", "playbackRate", "preservesPitch", "muted", "reverb"] ∧
      "reverbEnabled" ∉ (savedRecord s).map Prod.fst) ∧
    (∀ out : LoadOutcome, (loadSettings out).reverbEnabled = .vbool false) := by
  constructor
  · intro s
    refine ⟨rfl, ?_⟩
    intro hmem
    have hkeys : (savedRecord s).map Prod.fst =
        ["volume", "playbackRate", "preservesPitch", "muted", "reverb"] := rfl
    rw [hkeys] at hmem
    simp at hmem
  · intro out
    cases out with
    | storeThrew => rfl
    | loaded v =>
        cases v with
        | none => rfl
        | some j => cases j <;> rfl

/-- Witness for C3 at concrete inputs, including a stored record that
does contain `reverbEnabled: true`. -/
theorem reverbEnabled_never_persisted_never_loaded_witness :
    ((savedRecord DEFAULT_SETTINGS).map Prod.fst =
        ["volume", "playbackRate", "preservesPitch", "muted", "reverb"] ∧
     "reverbEnabled" ∉ (savedRecord DEFAULT_SETTINGS).map Prod.fst) ∧
    (loadSettings (.loaded (some (.vobj
        [("reverbEnabled", .vbool true)])))).reverbEnabled = .vbool false :=
  ⟨reverbEnabled_never_persisted_never_loaded.1 DEFAULT_SETTINGS,
   reverbEnabled_never_persisted_never_loaded.2 _⟩

/-! ### C6 — load semantics: merge over defaults, defaults on absence -/

/-- C6 counterexample: the stored record `{volume: "loud"}` is malformed
(its volume field is not a number), yet `loadSettings` does not treat it
as absent and does not substitute the default for the ill-typed field —
the object guard only checks `typeof`, and the spread copies the garbage
value over the default. -/
theorem loadSettings_malformed_object_not_defaulted :
    (loadSettings (.loaded (some (.vobj [("volume", .vstr "loud")])))).volume
        = .vstr "loud" ∧
    ¬ (loadSettings (.loaded (some (.vobj [("volume", .vstr "loud")])))).volume
        = defaultsDyn.volume := by
  refine ⟨rfl, ?_⟩
  intro h
  have h2 : JsonVal.vstr "loud" = JsonVal.vnum 1 := h
  cases h2

/-- C6 (amended): `loadSettings` returns the stored object merged over
the defaults with stored values winning field-by-field — whatever their
type — and `reverbEnabled` forced to `false`; it returns pure defaults
`{volume: 1, playbackRate: 1, preservesPitch: true, muted: false,
reverb: 0, reverbEnabled: false}` when the store threw, when no record
exists, and when the stored value is not an object.  A malformed record
is treated as absent only in the non-object case; an object record's
ill-typed field values are kept, not replaced by defaults (missing fields
do pick up their defaults). -/
theorem loadSettings_merge_over_defaults :
    (loadSettings .storeThrew = defaultsDyn) ∧
    (loadSettings (.loaded none) = defaultsDyn) ∧
    (∀ v : JsonVal, (∀ fields, v ≠ .vobj fields) →
      loadSettings (.loaded (some v)) = defaultsDyn) ∧
    (∀ fields,
      loadSettings (.loaded (some (.vobj fields))) =
        { volume := (jsonLookup fields "volume").getD (.vnum 1)
          playbackRate := (jsonLookup fields "playbackRate").getD (.vnum 1)
          preservesPitch := (jsonLookup fields "preservesPitch").getD (.vbool true)
          muted := (jsonLookup fields "muted").getD (.vbool false)
          reverb := (jsonLookup fields "reverb").getD (.vnum 0)
          reverbEnabled := .vbool false }) := by
  refine ⟨rfl, rfl, ?_, fun fields => rfl⟩
  intro v hv
  cases v with
  | vnull => rfl
  | vbool b => rfl
  | vnum q => rfl
  | vstr s => rfl
  | vobj fields => exact absurd rfl (hv fields)

/-- Witness for C6 at concrete inputs: a non-object stored value falls
back to full defaults, and an object record merges field-by-field with
missing fields defaulted. -/
theorem loadSettings_merge_over_defaults_witness :
    (loadSettings (.loaded (some (.vstr "oops"))) = defaultsDyn) ∧
    (loadSettings (.loaded (some (.vobj [("muted", .vbool true)]))) =
      { volume := .vnum 1
        playbackRate := .vnum 1
        preservesPitch := .vbool true
        muted := .vbool true
        reverb := .vnum 0
        reverbEnabled := .vbool false }) :=
  ⟨loadSettings_merge_over_defaults.2.2.1 (.vstr "oops")
      (fun _ h => JsonVal.noConfusion h),
   loadSettings_merge_over_defaults.2.2.2 [("muted", .vbool true)]⟩

/-! ### C7 — stale ids: ordinary success, strict no-op -/

/-- C7: any of the six mutating commands addressed at an id with no entry
in the media registry answers the ordinary success `{ok: true}` and does
nothing at all: `applyChange` returns before touching anything, so the
settings record, the store-write log — indeed the entire state — are
unchanged, and no event other than the response occurs.  The handler is a
total function, so no exception escapes it.  (Stated with the one-time
lazy settings load already done; that load is step 1 of command
processing, not an effect of the command itself.) -/
theorem staleId_noop_success (st : ContentState) (id : Nat) (ch : SettingChange)
    (hLoaded : st.settingsLoaded = true)
    (hAbsent : lookupL st.mediaRegistry id = none) :
    handleMessage st (reqOf id ch) = (st, Response.ok, [Event.responseSent]) := by
  have hac : applyChange st id ch = (st, false, []) := by
    unfold applyChange
    rw [hAbsent]
  cases ch <;> simp [handleMessage, reqOf, hLoaded, hac]

/-- Witness for C7: a `setVolume` for untracked id 99 on the sample state
leaves the state untouched and answers `{ok: true}`. -/
theorem staleId_noop_success_witness :
    handleMessage stBase (reqOf 99 (.volume (1/2)))
      = (stBase, Response.ok, [Event.responseSent]) :=
  staleId_noop_success stBase 99 (.volume (1/2)) rfl (by decide)

/-! ### C9 — snapshots report settings, not element properties -/

/-- C9: `buildMediaInfo` reports volume, playbackRate, preservesPitch and
muted from the in-memory settings record, so the snapshot is invariant
under any change of the element's own properties, and every entry of a
`getMedia` snapshot carries the settings values of the state the snapshot
was built from. -/
theorem mediaInfo_settings_sourced :
    (∀ st : ContentState, ∀ e : MediaElement, ∀ id : Nat,
      (buildMediaInfo st e id).volume = st.currentSettings.volume ∧
      (buildMediaInfo st e id).playbackRate = st.currentSettings.playbackRate ∧
      (buildMediaInfo st e id).preservesPitch = st.currentSettings.preservesPitch ∧
      (buildMediaInfo st e id).muted = st.currentSettings.muted) ∧
    (∀ st : ContentState, ∀ e e' : MediaElement, ∀ id : Nat,
      (buildMediaInfo st e id).volume = (buildMediaInfo st e' id).volume ∧
      (buildMediaInfo st e id).playbackRate = (buildMediaInfo st e' id).playbackRate ∧
      (buildMediaInfo st e id).preservesPitch = (buildMediaInfo st e' id).preservesPitch ∧
      (buildMediaInfo st e id).muted = (buildMediaInfo st e' id).muted) ∧
    (∀ st : ContentState, ∀ info ∈ (getAllMedia st).2,
      info.volume = ((getAllMedia st).1).currentSettings.volume ∧
      info.playbackRate = ((getAllMedia st).1).currentSettings.playbackRate ∧
      info.preservesPitch = ((getAllMedia st).1).currentSettings.preservesPitch ∧
      info.muted = ((getAllMedia st).1).currentSettings.muted) := by
  refine ⟨fun st e id => ⟨rfl, rfl, rfl, rfl⟩,
          fun st e e' id => ⟨rfl, rfl, rfl, rfl⟩, ?_⟩
  intro st info hinfo
  rcases List.mem_map.mp hinfo with ⟨p, hp, rfl⟩
  exact ⟨rfl, rfl, rfl, rfl⟩

/-- Witness for C9: the snapshot membership part at a concrete poll of
the sample state (elements whose own volume was altered by page scripts
still report the settings volume). -/
theorem mediaInfo_settings_sourced_witness :
    (buildMediaInfo stBase { elemA with volume := 1/4 } 1).volume
        = stBase.currentSettings.volume ∧
    (buildMediaInfo stBase { elemA with volume := 1/4 } 1).volume
        = (buildMediaInfo stBase elemA 1).volume :=
  ⟨(mediaInfo_settings_sourced.1 stBase { elemA with volume := 1/4 } 1).1,
   (mediaInfo_settings_sourced.2.1 stBase { elemA with volume := 1/4 } elemA 1).1⟩

/-! ### C2 — graph construction is guarded and failure is absorbed -/

/-- C2: `createAudioGraph` yields a graph only when reverb is currently
enabled in the site settings (conjunct 1; with reverb disabled it returns
`none` and changes nothing, conjunct 2); when construction throws at the
source tap (e.g. a cross-origin restriction) it returns `none` and leaves
the element untapped on its default playback path and both graph
registries unchanged (conjunct 3); and when the tap succeeds it returns a
graph and the element is now tapped (conjunct 4).  The operation is a
total function — the `catch` absorbs the failure, so no error propagates
out of it. -/
theorem createAudioGraph_guarded (st : ContentState) (id el : Nat) :
    ((createAudioGraph st id el).2.isSome = true →
        st.currentSettings.reverbEnabled = true) ∧
    (st.currentSettings.reverbEnabled = false →
        createAudioGraph st id el = (st, none)) ∧
    (st.currentSettings.reverbEnabled = true →
     lookupL st.audioGraphRegistry id = none →
     (st.elems el).tapThrows = true →
        (createAudioGraph st id el).2 = none ∧
        ((createAudioGraph st id el).1).elems = st.elems ∧
        ((createAudioGraph st id el).1).audioGraphRegistry = st.audioGraphRegistry ∧
        ((createAudioGraph st id el).1).graphHeap = st.graphHeap) ∧
    (st.currentSettings.reverbEnabled = true →
     lookupL st.audioGraphRegistry id = none →
     (st.elems el).tapThrows = false →
        (createAudioGraph st id el).2 = some st.nextGraphRef ∧
        (((createAudioGraph st id el).1).elems el).tapped = true) := by
  refine ⟨?_, ?_, ?_, ?_⟩
  · intro hs
    cases hrev : st.currentSettings.reverbEnabled with
    | true => rfl
    | false =>
        have hnone : createAudioGraph st id el = (st, none) := by
          unfold createAudioGraph
          rw [hrev]
          rfl
        rw [hnone] at hs
        exact absurd hs (by simp)
  · intro hrev
    unfold createAudioGraph
    rw [hrev]
    rfl
  · intro hrev habs hthrow
    unfold createAudioGraph
    rw [hrev]
    dsimp only
    rw [habs]
    dsimp only
    rw [hthrow]
    exact ⟨rfl, rfl, rfl, rfl⟩
  · intro hrev habs hok
    unfold createAudioGraph
    rw [hrev]
    dsimp only
    rw [habs]
    dsimp only
    rw [hok]
    refine ⟨rfl, ?_⟩
    simp [updateElem]

/-- Witness for C2: on the sample state with reverb enabled, tapping the
cross-origin element (ref 2, id 2) fails silently and changes nothing,
while tapping the ordinary element (ref 0, id 1) succeeds. -/
theorem createAudioGraph_guarded_witness :
    (createAudioGraph stBase 1 0 = (stBase, none)) ∧
    ((createAudioGraph stRev 2 2).2 = none ∧
      ((createAudioGraph stRev 2 2).1).elems = stRev.elems ∧
      ((createAudioGraph stRev 2 2).1).audioGraphRegistry = stRev.audioGraphRegistry ∧
      ((createAudioGraph stRev 2 2).1).graphHeap = stRev.graphHeap) ∧
    ((createAudioGraph stRev 1 0).2 = some stRev.nextGraphRef ∧
      (((createAudioGraph stRev 1 0).1).elems 0).tapped = true) :=
  ⟨(createAudioGraph_guarded stBase 1 0).2.1 rfl,
   (createAudioGraph_guarded stRev 2 2).2.2.1 rfl (by decide) (by decide),
   (createAudioGraph_guarded stRev 1 0).2.2.2 rfl (by decide) (by decide)⟩

/-! ### C5 — equal-power crossfade -/

theorem lookupL_setL {α : Type} (l : List (Nat × α)) (k : Nat) (f : α → α) :
    lookupL (setL l k f) k = (lookupL l k).map f := by
  induction l with
  | nil => rfl
  | cons p t ih =>
      by_cases hpk : p.1 = k
      · subst hpk
        simp [lookupL, setL, List.find?]
      · have hb : (p.1 == k) = false := by simp [hpk]
        show lookupL ((if (p.1 == k) = true then (p.1, f p.2) else p) :: setL t k f) k
            = (lookupL (p :: t) k).map f
        rw [hb, if_neg (by simp)]
        unfold lookupL
        rw [List.find?_cons_of_neg _ (by simp [hpk]),
          List.find?_cons_of_neg _ (by simp [hpk])]
        exact ih

/-- C5: on a state with an audio context and a graph registered for the
id, `updateReverbMix` sets the dry gain target to `cos(m·π/2)` and the
wet gain target to `sin(m·π/2)` and records the mix, so the targets
satisfy the equal-power identity `dry² + wet² = 1` for every
`m ∈ [0,1]`; and the crossfade is not the linear one — there is a mix in
`[0,1]` whose dry gain differs from `1 - m`. -/
theorem updateReverbMix_equal_power (st : ContentState) (id : Nat) (m : ℚ)
    (gref : Nat)
    (hctx : st.audioContextExists = true)
    (hreg : lookupL st.audioGraphRegistry id = some gref)
    (hheap : (lookupL st.graphHeap gref).isSome = true)
    (h0 : 0 ≤ m) (h1 : m ≤ 1) :
    (∃ g : MediaAudioGraph,
      lookupL (updateReverbMix st id m).graphHeap gref = some g ∧
      g.dryGainTarget = Real.cos ((m * Real.pi) / 2) ∧
      g.wetGainTarget = Real.sin ((m * Real.pi) / 2) ∧
      g.dryGainTarget ^ 2 + g.wetGainTarget ^ 2 = 1 ∧
      g.reverbMix = m) ∧
    ¬ (∀ m' : ℚ, 0 ≤ m' → m' ≤ 1 →
        Real.cos ((m' * Real.pi) / 2) = 1 - (m' : ℝ)) := by
  constructor
  · obtain ⟨g0, hg0⟩ := Option.isSome_iff_exists.mp hheap
    refine ⟨{ g0 with
        dryGainTarget := Real.cos ((m * Real.pi) / 2)
        wetGainTarget := Real.sin ((m * Real.pi) / 2)
        reverbMix := m }, ?_, rfl, rfl, Real.cos_sq_add_sin_sq _, rfl⟩
    unfold updateReverbMix
    rw [hreg, hctx]
    dsimp only
    rw [if_neg (by simp)]
    dsimp only
    rw [lookupL_setL, hg0]
    rfl
  · intro hlin
    have h2 := hlin (1/2) (by norm_num) (by norm_num)
    have hc : (((1:ℚ)/2 : ℚ) : ℝ) * Real.pi / 2 = Real.pi / 4 := by
      push_cast
      ring
    rw [hc, Real.cos_pi_div_four] at h2
    have hs : Real.sqrt 2 = 1 := by
      push_cast at h2
      linarith
    have h4 := Real.sq_sqrt (by norm_num : (0:ℝ) ≤ 2)
    rw [hs] at h4
    norm_num at h4

/-- Concrete graph object for the C5 witness. -/
def graph0 : MediaAudioGraph :=
  { dryGainTarget := 1
    wetGainTarget := 0
    reverbMix := 0
    reverbEnabled := true
    connected := true }

/-- Sample state with a live audio context and a graph for id 1. -/
def stGraph : ContentState :=
  { stRev with
    audioContextExists := true
    audioGraphRegistry := [(1, 0)]
    graphHeap := [(0, graph0)]
    nextGraphRef := 1 }

/-- Witness for C5 at mix 1/2 on the sample graph state. -/
theorem updateReverbMix_equal_power_witness :
    (∃ g : MediaAudioGraph,
      lookupL (updateReverbMix stGraph 1 (1/2)).graphHeap 0 = some g ∧
      g.dryGainTarget = Real.cos (((1:ℚ)/2 : ℚ) * Real.pi / 2) ∧
      g.wetGainTarget = Real.sin (((1:ℚ)/2 : ℚ) * Real.pi / 2) ∧
      g.dryGainTarget ^ 2 + g.wetGainTarget ^ 2 = 1 ∧
      g.reverbMix = 1/2) ∧
    ¬ (∀ m' : ℚ, 0 ≤ m' → m' ≤ 1 →
        Real.cos ((m' * Real.pi) / 2) = 1 - (m' : ℝ)) :=
  updateReverbMix_equal_power stGraph 1 (1/2) 0 rfl (by decide) rfl
    (by norm_num) (by norm_num)

/-! ### C8 — ordering of mutation, persistence and response -/

/-- C8 counterexample: for a tracked id, the handler's event trace does
not place the response before the store write's completion — `applyChange`
does `await saveSettings()` (which awaits `chrome.storage.local.set`)
before the handler returns `{ok: true}`, so the claim that the response
does not wait for the store write to complete is false at this input. -/
theorem response_not_before_persist_counterexample :
    ¬ (((handleMessage stBase (.setVolume 1 (1/2))).2.2).indexOf Event.responseSent
        < ((handleMessage stBase (.setVolume 1 (1/2))).2.2).indexOf
            Event.storeWriteCompleted) := by
  intro h
  have htr : (handleMessage stBase (.setVolume 1 (1/2))).2.2
      = [Event.settingsMutated, Event.storeWriteStarted,
         Event.storeWriteCompleted, Event.responseSent] := rfl
  rw [htr] at h
  exact absurd h (by decide)

/-- C8 (amended): for every mutating command on a tracked id, the settings
record is mutated, then the persistence write starts and *completes*, and
only then is the result returned: the handler awaits the store write, so
persistence is not fire-and-forget relative to the response — the
response is returned only after the store write has completed. -/
theorem persist_completes_before_response (st : ContentState) (id : Nat)
    (ch : SettingChange) (el : Nat)
    (hLoaded : st.settingsLoaded = true)
    (hEl : lookupL st.mediaRegistry id = some el) :
    (handleMessage st (reqOf id ch)).2.2
        = [Event.settingsMutated, Event.storeWriteStarted,
           Event.storeWriteCompleted, Event.responseSent] ∧
    ((handleMessage st (reqOf id ch)).2.2).indexOf Event.storeWriteCompleted
        < ((handleMessage st (reqOf id ch)).2.2).indexOf Event.responseSent := by
  have hac : (applyChange st id ch).2.2
      = [Event.settingsMutated, Event.storeWriteStarted, Event.storeWriteCompleted] := by
    unfold applyChange
    rw [hEl]
    cases ch <;> rfl
  have htr : (handleMessage st (reqOf id ch)).2.2
      = [Event.settingsMutated, Event.storeWriteStarted,
         Event.storeWriteCompleted, Event.responseSent] := by
    cases ch <;>
      simpa [handleMessage, reqOf, hLoaded] using congrArg (fun l => l ++ [Event.responseSent]) hac
  refine ⟨htr, ?_⟩
  rw [htr]
  decide

/-- Witness for C8 (amended) at a concrete tracked `setVolume`. -/
theorem persist_completes_before_response_witness :
    (handleMessage stBase (reqOf 1 (.volume (1/2)))).2.2
        = [Event.settingsMutated, Event.storeWriteStarted,
           Event.storeWriteCompleted, Event.responseSent] ∧
    ((handleMessage stBase (reqOf 1 (.volume (1/2)))).2.2).indexOf
          Event.storeWriteCompleted
        < ((handleMessage stBase (reqOf 1 (.volume (1/2)))).2.2).indexOf
            Event.responseSent :=
  persist_completes_before_response stBase 1 (.volume (1/2)) 0 rfl (by decide)

/-! ### C1 — rapid enable/disable/enable vs the scheduled teardown -/

/-- C1: evaluation of the code on the rapid-toggle sequence.  From the
sample state, `setReverbEnabled(1,true)` then `setReverbEnabled(1,false)`
then `setReverbEnabled(1,true)` again with the third command arriving
before the disable's 200 ms teardown fires: the re-enable's
`createAudioGraph` finds the old, faded graph still registered and
returns it (graph reference 0 — no fresh graph is built), and the
scheduled teardown is still pending.  When that teardown then fires, it
disconnects the captured graph's nodes and deletes id 1 from
`audioGraphRegistry` unconditionally, so the id ends with *no* registered
graph and a disconnected node set even though `reverbEnabled` is still
true — contradicting the claimed end state (a valid, connected, enabled
graph that the teardown does not destroy). -/
theorem rapid_toggle_teardown_destroys_graph :
    (lookupL ((handleMessage (handleMessage (handleMessage stBase
          (.setReverbEnabled 1 true)).1
          (.setReverbEnabled 1 false)).1
          (.setReverbEnabled 1 true)).1.audioGraphRegistry) 1 = some 0 ∧
     (handleMessage (handleMessage (handleMessage stBase
          (.setReverbEnabled 1 true)).1
          (.setReverbEnabled 1 false)).1
          (.setReverbEnabled 1 true)).1.pendingTeardowns = [(0, 1)] ∧
     (handleMessage (handleMessage (handleMessage stBase
          (.setReverbEnabled 1 true)).1
          (.setReverbEnabled 1 false)).1
          (.setReverbEnabled 1 true)).1.nextGraphRef = 1) ∧
    (lookupL ((fireNextTeardown (handleMessage (handleMessage (handleMessage stBase
          (.setReverbEnabled 1 true)).1
          (.setReverbEnabled 1 false)).1
          (.setReverbEnabled 1 true)).1).audioGraphRegistry) 1 = none ∧
     (lookupL ((fireNextTeardown (handleMessage (handleMessage (handleMessage stBase
          (.setReverbEnabled 1 true)).1
          (.setReverbEnabled 1 false)).1
          (.setReverbEnabled 1 true)).1).graphHeap) 0).map
            (fun g => g.connected) = some false ∧
     (fireNextTeardown (handleMessage (handleMessage (handleMessage stBase
          (.setReverbEnabled 1 true)).1
          (.setReverbEnabled 1 false)).1
          (.setReverbEnabled 1 true)).1).currentSettings.reverbEnabled = true) :=
  ⟨⟨rfl, rfl, rfl⟩, rfl, rfl, rfl⟩

/-! ### C10 — the getMedia snapshot: one entry per id, ascending -/

theorem WF.frame_pres {st st' : ContentState}
    (hreg : st'.mediaRegistry = st.mediaRegistry) (hnext : st'.nextId = st.nextId)
    (h : WF st) : WF st' := by
  constructor
  · intro p hp
    rw [hreg] at hp
    rw [hnext]
    exact h.1 p hp
  · show (st'.mediaRegistry.map _).Pairwise _
    rw [hreg]
    exact h.2

theorem WF.prune_pres {st : ContentState} (h : WF st) : WF (pruneRegistry st) := by
  constructor
  · intro p hp
    exact h.1 p (List.mem_of_mem_filter hp)
  · show ((st.mediaRegistry.filter (fun p => !shouldPrune st p)).map
        (fun p => p.1)).Pairwise (· < ·)
    exact List.Pairwise.sublist
      ((List.filter_sublist st.mediaRegistry).map (fun p => p.1)) h.2

theorem WF.getMediaId_pres {st : ContentState} (el : Nat) (h : WF st) :
    WF (TuneShifter.getMediaId st el).2 := by
  unfold TuneShifter.getMediaId
  cases hf : st.mediaRegistry.find? (fun q => q.2 == el) with
  | some p => exact h
  | none =>
      constructor
      · intro p hp
        show p.1 < st.nextId + 1
        rcases List.mem_append.mp hp with hp | hp
        · have := h.1 p hp
          omega
        · rcases List.mem_singleton.mp hp with rfl
          omega
      · show ((st.mediaRegistry ++ [(st.nextId, el)]).map (fun p => p.1)).Pairwise (· < ·)
        rw [List.map_append]
        refine List.pairwise_append.mpr ⟨h.2, ?_, ?_⟩
        · simp
        · intro a ha b hb
          rcases List.mem_map.mp ha with ⟨p, hp, rfl⟩
          rcases List.mem_singleton.mp hb with rfl
          exact h.1 p hp

theorem WF.register_pres {st : ContentState} (dom : List Nat) (h : WF st) :
    WF (registerDiscovered st dom) := by
  induction dom generalizing st with
  | nil => exact h
  | cons el rest ih =>
      refine ih (WF.frame_pres ?_ ?_ (h.getMediaId_pres el))
      · exact (applySettingsToElement_frame _ el _).1
      · exact (applySettingsToElement_frame _ el _).2

/-- C10: the `getMedia` snapshot emits exactly one `MediaInfo` per id in
the media registry that the snapshot loop iterates (the registry after
the prune-and-register phase), in registry insertion order; those ids are
strictly ascending (insertion order coincides with allocation order); and
on a page with no tracked and no discovered media the result is the empty
sequence, not an error. -/
theorem getMedia_one_entry_per_id_ascending (st : ContentState) (hWF : WF st) :
    ((getAllMedia st).2.map (fun i => i.id) = regKeys (getAllMedia st).1) ∧
    (((getAllMedia st).2.map (fun i => i.id)).Pairwise (· < ·)) ∧
    (st.mediaRegistry = [] → st.domMedia = [] → (getAllMedia st).2 = []) := by
  have hmap : (getAllMedia st).2.map (fun i => i.id) = regKeys (getAllMedia st).1 := by
    show ((getAllMedia st).1.mediaRegistry.map _).map _ = _
    rw [List.map_map]
    rfl
  refine ⟨hmap, ?_, ?_⟩
  · rw [hmap]
    exact (WF.register_pres _ hWF.prune_pres).2
  · intro h1 h2
    show ((registerDiscovered (pruneRegistry st) (pruneRegistry st).domMedia).mediaRegistry.map _) = []
    have hp : (pruneRegistry st).mediaRegistry = [] := by
      show st.mediaRegistry.filter _ = []
      rw [h1]
      rfl
    have hd : (pruneRegistry st).domMedia = [] := h2
    rw [hd]
    show ((pruneRegistry st).mediaRegistry.map _) = []
    rw [hp]
    rfl

/-- Witness for C10 on the well-formed sample state. -/
theorem getMedia_one_entry_per_id_ascending_witness :
    ((getAllMedia stBase).2.map (fun i => i.id) = regKeys (getAllMedia stBase).1) ∧
    (((getAllMedia stBase).2.map (fun i => i.id)).Pairwise (· < ·)) ∧
    (stBase.mediaRegistry = [] → stBase.domMedia = [] → (getAllMedia stBase).2 = []) :=
  getMedia_one_entry_per_id_ascending stBase ⟨by decide, by decide⟩

end TuneShifter
